import Mathlib

/-!
Verification of the mailhooks dispatch pipeline.

Shallow embedding of the engine of learnwithcc/mailhooks:
- the rule loader of engine/services/databaseRouter.js (loadRoutingRules),
- the periodic reload of the engine entrypoint (reloadRoutingRules, the
  startup call and the 30 second interval),
- the webhook dispatch queue worker of engine/server.js (attemptWebhook,
  the retry counter and the linear backoff),
- the HTTP request built for each delivery (axios.post call),
- the migration runner (migrations/init.js over 001-create-tables.sql)
  and the engine entrypoint ordering (migrations before the SMTP server).

Effectful JavaScript is modelled with explicit state passing; database reads
are modelled by a value of type Db plus a flag telling whether the store
query succeeds; the delivery of one HTTP request is modelled by an oracle
giving the response of each destination at each attempt.
-/

namespace Mailhooks

/-! ## Rule store rows

Rows of the three tables read by the engine query in
engine/services/databaseRouter.js. Columns not read by the engine
(created_at, updated_at, description) are omitted; the method column of
webhooks is kept because the spec talks about it (the engine never reads it).
-/

/-- Row of the email_addresses table: id SERIAL, email, status. -/
structure EmailAddress where
  id : Nat
  email : String
  status : String
  deriving DecidableEq, Repr

/-- Row of the webhooks table: id SERIAL, url, method (default POST). -/
structure Webhook where
  id : Nat
  url : String
  method : String
  deriving DecidableEq, Repr

/-- Row of the routing_rules table: id SERIAL, name, email_id, webhook_id. -/
structure RoutingRuleRow where
  id : Nat
  name : String
  email_id : Nat
  webhook_id : Nat
  deriving DecidableEq, Repr

/-- The rule store contents seen by one query. -/
structure Db where
  email_addresses : List EmailAddress
  webhooks : List Webhook
  routing_rules : List RoutingRuleRow
  deriving DecidableEq, Repr

/-- WebhookRouter rule format produced by loadRoutingRules:
name (row.name, or "Rule id" when the name is falsy), priority (the rule id),
conditions.to (the joined email), webhook (the joined url). -/
structure Rule where
  name : String
  priority : Nat
  conditionsTo : String
  webhook : String
  deriving DecidableEq, Repr

/-- One output row of the SQL query of loadRoutingRules:
SELECT rr.id, rr.name, ea.email, ea.status, w.url
FROM routing_rules rr
JOIN email_addresses ea ON rr.email_id = ea.id
JOIN webhooks w ON rr.webhook_id = w.id
for a single routing_rules row (the joined ids are primary keys), followed by
the row-to-rule mapping of the JavaScript: name row.name or "Rule id",
priority row.id, conditions.to row.email, webhook row.url.
There is no WHERE clause: the status column is selected but never filtered. -/
def ruleOfRow (db : Db) (rr : RoutingRuleRow) : Option Rule :=
  match db.email_addresses.find? (fun ea => ea.id == rr.email_id),
        db.webhooks.find? (fun w => w.id == rr.webhook_id) with
  | some ea, some w =>
      some { name := if rr.name = "" then "Rule " ++ toString rr.id else rr.name,
             priority := rr.id,
             conditionsTo := ea.email,
             webhook := w.url }
  | _, _ => none

/-- The successful branch of DatabaseRouter.loadRoutingRules: run the query
(inner join, ORDER BY rr.id ASC) and map each row to the WebhookRouter rule
format. Rules whose email_id or webhook_id joins nothing are dropped by the
inner join; no status filter is applied. -/
def loadRoutingRulesOk (db : Db) : List Rule :=
  ((db.routing_rules.insertionSort (fun a b => a.id ≤ b.id)).filterMap (ruleOfRow db))

/-- DatabaseRouter.loadRoutingRules with its catch: any query failure is
caught inside the method and an empty list is returned. storeOk models
whether the store queries succeed. -/
def loadRoutingRules (storeOk : Bool) (db : Db) : List Rule :=
  if storeOk then loadRoutingRulesOk db else []

/-- Module level mutable state of the engine entrypoint server: loadedRules
and the WebhookRouter built from config.WEBHOOK_RULES (the router keeps no
other state relevant to matching, so it is represented by its rule list). -/
structure EngineState where
  loadedRules : List Rule
  deriving DecidableEq, Repr

/-- reloadRoutingRules of the engine entrypoint server: overwrite loadedRules
with whatever loadRoutingRules returned, rebuild the router from it, return
true. The catch branch returning false is unreachable because
loadRoutingRules never rejects (its own catch returns the empty list), so the
returned flag is constantly true, also when the store query failed. -/
def reloadRoutingRules (storeOk : Bool) (db : Db) (st : EngineState) :
    EngineState × Bool :=
  let _previous := st
  ({ loadedRules := loadRoutingRules storeOk db }, true)

/-- Reload period of the setInterval call in the engine entrypoint server
(30000 ms). -/
def reloadPeriodMs : Nat := 30000

/-- Top level steps of the engine entrypoint server module, in source order:
await reloadRoutingRules(), setInterval(reload, 30000), the webhook queue
construction, server.listen. -/
inductive StartupStep where
  | reloadRules
  | setIntervalReload (periodMs : Nat)
  | createWebhookQueue
  | listenSmtp
  deriving DecidableEq, Repr

/-- The order in which the engine entrypoint server module executes its top
level statements. -/
def serverStartupOrder : List StartupStep :=
  [.reloadRules, .setIntervalReload reloadPeriodMs, .createWebhookQueue, .listenSmtp]

/-! ## Spec side definition for the refinement claim about the snapshot -/

/-- Written from the words of the spec, for comparison with
loadRoutingRulesOk: the snapshot keeps exactly the joined rules whose status
is active and sorts them by (priority, id); with the source convention that
the priority of a produced rule is its id, this is the joined rule list
restricted to rows whose email status is active, in id order. -/
def specActiveSnapshot (db : Db) : List Rule :=
  ((db.routing_rules.insertionSort (fun a b => a.id ≤ b.id)).filterMap (fun rr =>
    match db.email_addresses.find? (fun ea => ea.id == rr.email_id),
          db.webhooks.find? (fun w => w.id == rr.webhook_id) with
    | some ea, some w =>
        if ea.status = "active" then
          some { name := if rr.name = "" then "Rule " ++ toString rr.id else rr.name,
                 priority := rr.id,
                 conditionsTo := ea.email,
                 webhook := w.url }
        else none
    | _, _ => none))

/-! ## Delivery and the webhook queue worker

The queue worker of the engine server processes one parsed email: it routes
the email with the router current at the time of each attempt, sends one
axios POST per matched rule in order, and retries the whole attempt with
linear backoff while every destination failed (or none matched), up to
maxRetries extra attempts. The parsed email itself is opaque to the
dispatch logic, so it stays a type parameter of the request model.
-/

/-- Result of one axios call: the promise resolves with a status (success)
or rejects carrying an optional response status and an error message. -/
inductive DeliveryResult where
  | success (status : Nat)
  | failure (status : Option Nat) (msg : String)
  deriving DecidableEq, Repr

/-- Whether the axios promise resolved. -/
def DeliveryResult.isSuccess : DeliveryResult → Bool
  | .success _ => true
  | .failure _ _ => false

/-- Modelled from the spec: axios is an external library; with its default
validation a request resolves exactly when the response status is 2xx, and a
non 2xx response rejects with error.response.status set while a transport
error rejects with no response. The spec words: expects any 2xx response as
success; a non-2xx response or transport error counts as attempt failure. -/
def axiosResult (resp : Option Nat) : DeliveryResult :=
  match resp with
  | none => .failure none "network error"
  | some s =>
      if 200 ≤ s ∧ s < 300 then .success s
      else .failure (some s) ("Request failed with status code " ++ toString s)

/-- The _webhookMeta block added to the forwarded JSON body. -/
structure WebhookMeta where
  ruleName : String
  priority : Nat
  webhook : String
  deriving DecidableEq, Repr

/-- The HTTP request built for one delivery by the queue worker: axios.post
of the parsed email spread together with _webhookMeta, to match.webhook,
with timeout 5000 and the two fixed headers. The method is the axios post
function itself, not anything read from the rule. -/
structure HttpRequest (ε : Type) where
  method : String
  url : String
  payloadEmail : ε
  meta : WebhookMeta
  timeoutMs : Nat
  contentType : String
  userAgent : String
  deriving DecidableEq, Repr

/-- Request construction of the queue worker for one matched rule. -/
def buildWebhookRequest {ε : Type} (parsed : ε) (m : Rule) : HttpRequest ε :=
  { method := "POST",
    url := m.webhook,
    payloadEmail := parsed,
    meta := { ruleName := m.name, priority := m.priority, webhook := m.webhook },
    timeoutMs := 5000,
    contentType := "application/json",
    userAgent := "inbound-email-service/1.0" }

/-- One entry pushed onto the worker results list: on success
(webhook, ruleName, status, success true); on failure (webhook, ruleName,
success false, error message, status error.response.status or null, where
the JavaScript orOperator maps a falsy status to null). -/
structure SendRecord where
  webhook : String
  ruleName : String
  success : Bool
  status : Option Nat
  error : Option String
  deriving DecidableEq, Repr

/-- The body of the per destination try/catch of the queue worker: perform
the axios call for one matched rule and push the corresponding record. -/
def sendOneWebhook (deliver : Rule → DeliveryResult) (m : Rule) : SendRecord :=
  match deliver m with
  | .success s =>
      { webhook := m.webhook, ruleName := m.name, success := true,
        status := some s, error := none }
  | .failure s msg =>
      { webhook := m.webhook, ruleName := m.name, success := false,
        status := s.bind (fun c => if c = 0 then none else some c),
        error := some msg }

/-- The errors raised inside one attempt of the queue worker: the no match
throw and the all failed throw (carrying the matched count). -/
inductive AttemptError where
  | noWebhookEndpoints
  | allWebhooksFailed (n : Nat)
  deriving DecidableEq, Repr

/-- One pass of the try block of attemptWebhook: if nothing matched, throw;
otherwise send to every matched rule in order collecting results, and throw
when the error count equals the matched count (all failed); otherwise the
attempt ends successfully with cb(null). -/
def attemptOutcome (matched : List Rule) (deliver : Rule → DeliveryResult) :
    List SendRecord × Option AttemptError :=
  if matched.isEmpty then ([], some .noWebhookEndpoints)
  else
    let results := matched.map (sendOneWebhook deliver)
    let errors := results.filter (fun r => !r.success)
    if errors.length = matched.length then
      (results, some (.allWebhooksFailed matched.length))
    else (results, none)

/-- Record of one executed attempt: the retries counter value when it ran,
the list the router matched at that moment, and the per destination send
records it produced. -/
structure AttemptRecord where
  attemptIndex : Nat
  matched : List Rule
  results : List SendRecord
  deriving DecidableEq, Repr

/-- The job level outcome delivered to the better-queue callback: cb(null)
on a successful attempt, cb(error) once retries are exhausted. -/
inductive JobOutcome where
  | ok
  | err (e : AttemptError)
  deriving DecidableEq, Repr

/-- Everything one job run produced: the executed attempts in order, the
backoff delays passed to setTimeout between them, and the callback value. -/
structure JobRun where
  attempts : List AttemptRecord
  retryDelaysMs : List Nat
  outcome : JobOutcome
  deriving DecidableEq, Repr

/-- One iteration of attemptWebhook for a given retries counter value:
route the parsed email with the router current at this attempt
(route retries), run the try block, and package the attempt record. -/
def oneAttempt (route : Nat → List Rule) (deliver : Nat → Rule → DeliveryResult)
    (retries : Nat) : AttemptRecord × Option AttemptError :=
  let matched := route retries
  let (results, thrown) := attemptOutcome matched (deliver retries)
  ({ attemptIndex := retries, matched := matched, results := results }, thrown)

/-- The retry loop of attemptWebhook. The JavaScript keeps a counter retries
growing from 0 and re-runs while retries < maxRetries, incrementing first
and sleeping 1000 * retries (after the increment) before the next attempt;
here the loop variable is remaining = maxRetries - retries, so retries is
recovered as maxRetries - remaining, the guard retries < maxRetries is
remaining > 0, and the delay before the next attempt is 1000 * (retries + 1).
When the attempt throws with remaining = 0 the error goes to cb(error). -/
def attemptWebhookLoop (route : Nat → List Rule)
    (deliver : Nat → Rule → DeliveryResult) (maxRetries : Nat) :
    Nat → JobRun
  | 0 =>
      let (att, thrown) := oneAttempt route deliver maxRetries
      match thrown with
      | none => { attempts := [att], retryDelaysMs := [], outcome := .ok }
      | some e => { attempts := [att], retryDelaysMs := [], outcome := .err e }
  | remaining + 1 =>
      let retries := maxRetries - (remaining + 1)
      let (att, thrown) := oneAttempt route deliver retries
      match thrown with
      | none => { attempts := [att], retryDelaysMs := [], outcome := .ok }
      | some _ =>
          let rest := attemptWebhookLoop route deliver maxRetries remaining
          { attempts := att :: rest.attempts,
            retryDelaysMs := 1000 * (retries + 1) :: rest.retryDelaysMs,
            outcome := rest.outcome }

/-- The maxRetries constant of the queue worker. -/
def maxRetries : Nat := 3

/-- Processing of one queued parsed email: attemptWebhook starting with
retries = 0 (remaining = maxRetries) against the per attempt router output
route and the per attempt delivery oracle deliver. -/
def processJob (route : Nat → List Rule)
    (deliver : Nat → Rule → DeliveryResult) : JobRun :=
  attemptWebhookLoop route deliver maxRetries maxRetries

/-- Number of send records addressed to a given webhook url over the whole
run (every axios call made for that destination, across attempts). -/
def deliveriesTo (run : JobRun) (url : String) : Nat :=
  (run.attempts.map (fun a => (a.results.filter (fun s => s.webhook == url)).length)).sum

/-! ## Migration runner and engine startup

migrations/init.js reads every .sql file of the migrations directory in
sorted order (the directory holds 001-create-tables.sql) and passes each
whole file to a single pool.query call; on an error it exits with code 1.
A multi-statement simple query is executed by PostgreSQL as one implicit
transaction: when any statement fails, the effects of every statement of
the file are rolled back, so a failed migration leaves the database exactly
as it was. The engine entrypoint shell script runs the migrations first
and starts the SMTP service only when they succeeded. Tables carry abstract
row data (a list of row identifiers). Foreign key bookkeeping of DROP
CASCADE is irrelevant here because routing_rules is always dropped before
the tables it references.
-/

/-- The SQL statements of 001-create-tables.sql that touch tables or
indexes. -/
inductive SqlStmt where
  | dropTableIfExists (table : String)
  | createTable (table : String)
  | createIndex (idx : String) (table : String)
  deriving DecidableEq, Repr

/-- Database schema state: existing tables with their rows, and existing
indexes with the table they belong to. -/
structure PgState where
  tables : List (String × List Nat)
  indexes : List (String × String)
  deriving DecidableEq, Repr

/-- Rows of an existing table (none when the table does not exist). -/
def lookupTable (s : PgState) (name : String) : Option (List Nat) :=
  (s.tables.find? (fun t => t.1 == name)).map (fun t => t.2)

/-- Execution of one statement. DROP TABLE IF EXISTS removes the table and
its indexes and never fails; CREATE TABLE (no IF NOT EXISTS in this file)
fails when the relation already exists, as does CREATE INDEX. -/
def execStmt (s : PgState) : SqlStmt → Except String PgState
  | .dropTableIfExists n =>
      .ok { tables := s.tables.filter (fun t => t.1 ≠ n),
            indexes := s.indexes.filter (fun i => i.2 ≠ n) }
  | .createTable n =>
      if s.tables.any (fun t => t.1 == n) then
        .error ("relation " ++ n ++ " already exists")
      else .ok { s with tables := (n, []) :: s.tables }
  | .createIndex i t =>
      if s.indexes.any (fun j => j.1 == i) then
        .error ("relation " ++ i ++ " already exists")
      else .ok { s with indexes := (i, t) :: s.indexes }

/-- Execution of a statement list inside the implicit transaction: the
statements run in order on a working state, and the first failure aborts
with its error (the caller rolls the whole transaction back). -/
def runStmtsTx : PgState → List SqlStmt → Except String PgState
  | s, [] => .ok s
  | s, stmt :: rest =>
      match execStmt s stmt with
      | .ok s2 => runStmtsTx s2 rest
      | .error e => .error e

/-- The statements of engine/migrations/001-create-tables.sql in file
order: drop routing_rules, webhook_destinations and email_addresses, then
create email_addresses, webhooks and routing_rules, then the three
indexes. The webhooks table is created but never dropped. -/
def migration001 : List SqlStmt :=
  [ .dropTableIfExists "routing_rules",
    .dropTableIfExists "webhook_destinations",
    .dropTableIfExists "email_addresses",
    .createTable "email_addresses",
    .createTable "webhooks",
    .createTable "routing_rules",
    .createIndex "idx_email_addresses_status" "email_addresses",
    .createIndex "idx_routing_rules_email_id" "routing_rules",
    .createIndex "idx_routing_rules_webhook_id" "routing_rules" ]

/-- migrations/init.js: the only .sql file of the directory is sent as one
pool.query call, which PostgreSQL runs as a single implicit transaction —
on success the fully executed state is committed, and on any statement
error the whole file is rolled back, leaving the database unchanged, with
the error reported. -/
def runMigrations (s : PgState) : PgState × Option String :=
  match runStmtsTx s migration001 with
  | .ok s2 => (s2, none)
  | .error e => (s, some e)

/-- Result of one engine boot via entrypoint.sh: migrations first; when a
migration statement failed the script exits 1 and the SMTP server is never
started. -/
inductive EngineBoot where
  | started (db : PgState)
  | migrationFailed (db : PgState) (err : String)
  deriving DecidableEq, Repr

/-- entrypoint.sh: node migrations/init.js, then exec npm start (the SMTP
server) only when the migrations succeeded. -/
def engineStartup (s : PgState) : EngineBoot :=
  match runMigrations s with
  | (s2, none) => .started s2
  | (s2, some e) => .migrationFailed s2 e

/-! ## Helper lemmas -/

/-- A rule produced from a routing_rules row carries the row id as its
priority. -/
lemma ruleOfRow_priority {db : Db} {rr : RoutingRuleRow} {r : Rule}
    (h : ruleOfRow db rr = some r) : r.priority = rr.id := by
  unfold ruleOfRow at h
  cases hea : db.email_addresses.find? (fun ea => ea.id == rr.email_id) with
  | none => rw [hea] at h; exact absurd h (by simp)
  | some ea =>
      cases hw : db.webhooks.find? (fun w => w.id == rr.webhook_id) with
      | none => rw [hea, hw] at h; exact absurd h (by simp)
      | some w =>
          rw [hea, hw] at h
          cases h
          rfl

/-- The rule list published by a successful load is ordered by ascending
priority. -/
lemma loadRoutingRulesOk_pairwise (db : Db) :
    (loadRoutingRulesOk db).Pairwise (fun a b => a.priority ≤ b.priority) := by
  unfold loadRoutingRulesOk
  haveI htot : IsTotal RoutingRuleRow (fun a b => a.id ≤ b.id) :=
    ⟨fun a b => Nat.le_total a.id b.id⟩
  haveI htrans : IsTrans RoutingRuleRow (fun a b => a.id ≤ b.id) :=
    ⟨fun _ _ _ hab hbc => Nat.le_trans hab hbc⟩
  have hsorted :
      (db.routing_rules.insertionSort (fun a b => a.id ≤ b.id)).Pairwise
        (fun a b => a.id ≤ b.id) := by
    have h := List.sorted_insertionSort (α := RoutingRuleRow)
      (fun a b => a.id ≤ b.id) db.routing_rules
    exact h
  apply List.Pairwise.filterMap (ruleOfRow db) _ hsorted
  intro a b hab x hx y hy
  have hxa := ruleOfRow_priority hx
  have hyb := ruleOfRow_priority hy
  omega

/-- Membership in the published rule list: exactly the joined rows, with no
condition on any status column. -/
lemma mem_loadRoutingRulesOk (db : Db) (r : Rule) :
    r ∈ loadRoutingRulesOk db ↔
      ∃ rr, rr ∈ db.routing_rules ∧ ruleOfRow db rr = some r := by
  unfold loadRoutingRulesOk
  rw [List.mem_filterMap]
  constructor
  · rintro ⟨rr, hmem, heq⟩
    exact ⟨rr, (List.perm_insertionSort (fun a b => a.id ≤ b.id) db.routing_rules).mem_iff.mp
      hmem, heq⟩
  · rintro ⟨rr, hmem, heq⟩
    exact ⟨rr, (List.perm_insertionSort (fun a b => a.id ≤ b.id) db.routing_rules).mem_iff.mpr
      hmem, heq⟩

/-! ## Claim C1 -/

/-- Sample rule used by concrete counterexamples. -/
def sampleRule : Rule :=
  { name := "r0", priority := 1, conditionsTo := "a@x.com", webhook := "https://h/1" }

/-- C1 counterexample: with a previously published snapshot holding one rule,
a refresh whose store read fails publishes the empty list, so the snapshot
after the failed refresh differs from the snapshot before the call. -/
theorem c1_failed_refresh_overwrites_counterexample :
    ((reloadRoutingRules false { email_addresses := [], webhooks := [], routing_rules := [] }
        { loadedRules := [sampleRule] }).1).loadedRules
      ≠ [sampleRule] := by
  decide

/-- C1 amended: for every rule-store failure, the refresh publishes the empty
rule list regardless of the previous snapshot (loadRoutingRules catches the
error and returns an empty list, and reloadRoutingRules installs it), and the
reload call still reports success. The system does not keep the last known
good snapshot. -/
theorem c1_failed_refresh_installs_empty (db : Db) (st : EngineState) :
    reloadRoutingRules false db st = ({ loadedRules := [] }, true) := rfl

/-! ## Claim C2 -/

/-- Concrete store with a single joined rule whose email address status is
inactive. -/
def inactiveDb : Db :=
  { email_addresses := [{ id := 1, email := "a@x.com", status := "inactive" }],
    webhooks := [{ id := 1, url := "https://h/1", method := "POST" }],
    routing_rules := [{ id := 1, name := "r1", email_id := 1, webhook_id := 1 }] }

/-- C2 counterexample: the loader keeps a rule whose email address status is
inactive, so the published snapshot differs from the active-only snapshot the
spec describes; the inactive rule is matched. -/
theorem c2_inactive_rule_included_counterexample :
    loadRoutingRulesOk inactiveDb ≠ specActiveSnapshot inactiveDb ∧
    loadRoutingRulesOk inactiveDb
      = [{ name := "r1", priority := 1, conditionsTo := "a@x.com", webhook := "https://h/1" }] ∧
    specActiveSnapshot inactiveDb = [] := by
  refine ⟨?_, ?_, ?_⟩ <;> decide

/-- C2 amended: after a successful refresh the snapshot contains exactly the
rules of the store that join an existing email address and webhook,
regardless of any status column (the query has no active filter), sorted by
priority ascending, where the priority of a produced rule is its rule id. -/
theorem c2_snapshot_all_joined_rules_sorted (db : Db) :
    (loadRoutingRulesOk db).Pairwise (fun a b => a.priority ≤ b.priority) ∧
    (∀ r, r ∈ loadRoutingRulesOk db ↔
      ∃ rr, rr ∈ db.routing_rules ∧ ruleOfRow db rr = some r) ∧
    (∀ r, r ∈ loadRoutingRulesOk db →
      ∃ rr, rr ∈ db.routing_rules ∧ r.priority = rr.id) := by
  refine ⟨loadRoutingRulesOk_pairwise db, mem_loadRoutingRulesOk db, ?_⟩
  intro r hr
  obtain ⟨rr, hmem, heq⟩ := (mem_loadRoutingRulesOk db r).mp hr
  exact ⟨rr, hmem, ruleOfRow_priority heq⟩

/-! ## Helper lemmas about the queue worker loop -/

/-- The record pushed for a rule is addressed to that rule's webhook url. -/
lemma sendOneWebhook_webhook (d : Rule → DeliveryResult) (m : Rule) :
    (sendOneWebhook d m).webhook = m.webhook := by
  unfold sendOneWebhook
  cases d m <;> rfl

/-- The success flag of the pushed record is the resolution of the axios
promise. -/
lemma sendOneWebhook_success (d : Rule → DeliveryResult) (m : Rule) :
    (sendOneWebhook d m).success = (d m).isSuccess := by
  unfold sendOneWebhook DeliveryResult.isSuccess
  cases d m <;> rfl

/-- The results list of one attempt pass: empty when nothing matched,
otherwise one send record per matched rule in order. -/
lemma attemptOutcome_fst (matched : List Rule) (d : Rule → DeliveryResult) :
    (attemptOutcome matched d).1
      = if matched.isEmpty then [] else matched.map (sendOneWebhook d) := by
  unfold attemptOutcome
  by_cases h : matched.isEmpty
  · simp [h]
  · simp only [h, Bool.false_eq_true, if_false]
    split <;> rfl

/-- One iteration produces the record of the current attempt and the thrown
error of the try block, if any. -/
lemma oneAttempt_eq (route : Nat → List Rule) (deliver : Nat → Rule → DeliveryResult)
    (k : Nat) :
    oneAttempt route deliver k
      = ({ attemptIndex := k, matched := route k,
           results := (attemptOutcome (route k) (deliver k)).1 },
         (attemptOutcome (route k) (deliver k)).2) := by
  unfold oneAttempt
  rw [show attemptOutcome (route k) (deliver k)
      = ((attemptOutcome (route k) (deliver k)).1, (attemptOutcome (route k) (deliver k)).2)
    from rfl]

/-- Loop equation: last allowed attempt, try block succeeded. -/
lemma loop_zero_none (route : Nat → List Rule) (deliver : Nat → Rule → DeliveryResult)
    {m : Nat} (h : (attemptOutcome (route m) (deliver m)).2 = none) :
    attemptWebhookLoop route deliver m 0
      = { attempts := [{ attemptIndex := m, matched := route m,
                         results := (attemptOutcome (route m) (deliver m)).1 }],
          retryDelaysMs := [], outcome := .ok } := by
  simp only [attemptWebhookLoop, oneAttempt_eq, h]

/-- Loop equation: last allowed attempt, try block threw; the error reaches
the queue callback. -/
lemma loop_zero_some (route : Nat → List Rule) (deliver : Nat → Rule → DeliveryResult)
    {m : Nat} {e : AttemptError} (h : (attemptOutcome (route m) (deliver m)).2 = some e) :
    attemptWebhookLoop route deliver m 0
      = { attempts := [{ attemptIndex := m, matched := route m,
                         results := (attemptOutcome (route m) (deliver m)).1 }],
          retryDelaysMs := [], outcome := .err e } := by
  simp only [attemptWebhookLoop, oneAttempt_eq, h]

/-- Loop equation: retries remain, try block succeeded; the loop stops. -/
lemma loop_succ_none (route : Nat → List Rule) (deliver : Nat → Rule → DeliveryResult)
    {m k retries : Nat} (hret : m - (k + 1) = retries)
    (h : (attemptOutcome (route retries) (deliver retries)).2 = none) :
    attemptWebhookLoop route deliver m (k + 1)
      = { attempts := [{ attemptIndex := retries, matched := route retries,
                         results := (attemptOutcome (route retries) (deliver retries)).1 }],
          retryDelaysMs := [], outcome := .ok } := by
  subst hret
  simp only [attemptWebhookLoop, oneAttempt_eq, h]

/-- Loop equation: retries remain, try block threw; the counter is bumped and
a backoff of 1000 * (retries + 1) milliseconds is scheduled before the next
attempt. -/
lemma loop_succ_some (route : Nat → List Rule) (deliver : Nat → Rule → DeliveryResult)
    {m k retries : Nat} {e : AttemptError} (hret : m - (k + 1) = retries)
    (h : (attemptOutcome (route retries) (deliver retries)).2 = some e) :
    attemptWebhookLoop route deliver m (k + 1)
      = { attempts := { attemptIndex := retries, matched := route retries,
                        results := (attemptOutcome (route retries) (deliver retries)).1 }
            :: (attemptWebhookLoop route deliver m k).attempts,
          retryDelaysMs := 1000 * (retries + 1)
            :: (attemptWebhookLoop route deliver m k).retryDelaysMs,
          outcome := (attemptWebhookLoop route deliver m k).outcome } := by
  subst hret
  simp only [attemptWebhookLoop, oneAttempt_eq, h]

/-- Every attempt record of a run matched with the router output at its own
attempt index and its results are the try block pass over that list. -/
lemma attemptWebhookLoop_mem (route : Nat → List Rule)
    (deliver : Nat → Rule → DeliveryResult) (m : Nat) :
    ∀ (k : Nat), ∀ a ∈ (attemptWebhookLoop route deliver m k).attempts,
      a.matched = route a.attemptIndex ∧
      a.results = (attemptOutcome (route a.attemptIndex) (deliver a.attemptIndex)).1 := by
  intro k
  induction k with
  | zero =>
      intro a ha
      cases hth : (attemptOutcome (route m) (deliver m)).2 with
      | none =>
          rw [loop_zero_none route deliver hth] at ha
          rcases List.mem_singleton.mp ha with rfl
          exact ⟨rfl, rfl⟩
      | some e =>
          rw [loop_zero_some route deliver hth] at ha
          rcases List.mem_singleton.mp ha with rfl
          exact ⟨rfl, rfl⟩
  | succ k ih =>
      intro a ha
      cases hth : (attemptOutcome (route (m - (k + 1))) (deliver (m - (k + 1)))).2 with
      | none =>
          rw [loop_succ_none route deliver rfl hth] at ha
          rcases List.mem_singleton.mp ha with rfl
          exact ⟨rfl, rfl⟩
      | some e =>
          rw [loop_succ_some route deliver rfl hth] at ha
          rcases List.mem_cons.mp ha with rfl | hmem
          · exact ⟨rfl, rfl⟩
          · exact ih a hmem

/-- The attempt indexes of a run are consecutive, starting at the retries
value of the first attempt. -/
lemma attemptWebhookLoop_indexes (route : Nat → List Rule)
    (deliver : Nat → Rule → DeliveryResult) (m : Nat) :
    ∀ (k : Nat), k ≤ m →
      ((attemptWebhookLoop route deliver m k).attempts).map (fun a => a.attemptIndex)
        = List.range' (m - k)
            ((attemptWebhookLoop route deliver m k).attempts).length := by
  intro k
  induction k with
  | zero =>
      intro _
      cases hth : (attemptOutcome (route m) (deliver m)).2 with
      | none => rw [loop_zero_none route deliver hth]; simp
      | some e => rw [loop_zero_some route deliver hth]; simp
  | succ k ih =>
      intro hk
      cases hth : (attemptOutcome (route (m - (k + 1))) (deliver (m - (k + 1)))).2 with
      | none => rw [loop_succ_none route deliver rfl hth]; simp
      | some e =>
          rw [loop_succ_some route deliver rfl hth]
          simp only [List.map_cons, List.length_cons]
          rw [ih (by omega)]
          rw [show m - k = m - (k + 1) + 1 from by omega]
          rw [List.range'_succ]

/-- The backoff delays of a run follow the bumped counter: the i-th retry is
scheduled 1000 * (firstRetries + i + 1) milliseconds after the i-th failed
attempt. -/
lemma attemptWebhookLoop_delays (route : Nat → List Rule)
    (deliver : Nat → Rule → DeliveryResult) (m : Nat) :
    ∀ (k : Nat), k ≤ m →
      (attemptWebhookLoop route deliver m k).retryDelaysMs
        = (List.range ((attemptWebhookLoop route deliver m k).attempts.length - 1)).map
            (fun i => 1000 * ((m - k) + i + 1)) := by
  intro k
  induction k with
  | zero =>
      intro _
      cases hth : (attemptOutcome (route m) (deliver m)).2 with
      | none => rw [loop_zero_none route deliver hth]; simp
      | some e => rw [loop_zero_some route deliver hth]; simp
  | succ k ih =>
      intro hk
      cases hth : (attemptOutcome (route (m - (k + 1))) (deliver (m - (k + 1)))).2 with
      | none => rw [loop_succ_none route deliver rfl hth]; simp
      | some e =>
          rw [loop_succ_some route deliver rfl hth]
          simp only [List.length_cons]
          have hlen : (attemptWebhookLoop route deliver m k).attempts.length ≠ 0 := by
            cases hth2 : (attemptOutcome (route (m - k)) (deliver (m - k))).2 with
            | none =>
                cases k with
                | zero => rw [show m - 0 = m from rfl] at hth2
                          rw [loop_zero_none route deliver hth2]; simp
                | succ k2 => rw [loop_succ_none route deliver rfl hth2]; simp
            | some e2 =>
                cases k with
                | zero => rw [show m - 0 = m from rfl] at hth2
                          rw [loop_zero_some route deliver hth2]; simp
                | succ k2 => rw [loop_succ_some route deliver rfl hth2]; simp
          rw [ih (by omega)]
          obtain ⟨n, hn⟩ : ∃ n, (attemptWebhookLoop route deliver m k).attempts.length
              = n + 1 := ⟨_, (Nat.succ_pred_eq_of_pos (Nat.pos_of_ne_zero hlen)).symm⟩
          rw [hn]
          simp only [Nat.add_sub_cancel, List.range_succ_eq_map, List.map_cons,
            List.map_map]
          refine congrArg₂ List.cons (by omega) ?_
          apply List.map_congr_left
          intro i _
          simp only [Function.comp_apply]
          omega

/-! ## Claim C3 -/

/-- An attempt whose matched list has at least one successful delivery ends
the try block without throwing, with its full results list. -/
lemma attemptOutcome_of_success (matched : List Rule) (d : Rule → DeliveryResult)
    (hne : matched ≠ [])
    (hsucc : ∃ r, r ∈ matched ∧ (d r).isSuccess = true) :
    attemptOutcome matched d = (matched.map (sendOneWebhook d), none) := by
  unfold attemptOutcome
  have hempty : matched.isEmpty = false := by
    cases matched with
    | nil => exact absurd rfl hne
    | cons x xs => rfl
  rw [hempty]
  simp only [Bool.false_eq_true, if_false]
  have hlen : ¬ ((matched.map (sendOneWebhook d)).filter
      (fun r => !r.success)).length = matched.length := by
    intro hcontra
    rw [show matched.length = (matched.map (sendOneWebhook d)).length from
      (List.length_map _ _).symm] at hcontra
    have hall := List.filter_length_eq_length.mp hcontra
    obtain ⟨r, hr, hs⟩ := hsucc
    have := hall (sendOneWebhook d r) (List.mem_map_of_mem _ hr)
    rw [sendOneWebhook_success, hs] at this
    exact absurd this (by decide)
  simp [hlen]

/-- Always failing and always succeeding destinations used by concrete runs. -/
def ruleFailing : Rule :=
  { name := "failing", priority := 1, conditionsTo := "a@x.com", webhook := "https://h/fail" }

/-- Second concrete destination, delivered successfully. -/
def ruleSucceeding : Rule :=
  { name := "succeeding", priority := 2, conditionsTo := "a@x.com", webhook := "https://h/ok" }

/-- Delivery oracle where the failing destination always fails with a 500 and
the succeeding one always returns 200. -/
def mixedDeliver : Nat → Rule → DeliveryResult := fun _ r =>
  if r.webhook == "https://h/ok" then .success 200 else .failure (some 500) "boom"

/-- C3 counterexample: with one always-failing and one always-succeeding
destination, the job ends after a single attempt with cb(null) — reported as
a plain success, not as a partial failure — and the failing destination is
attempted exactly once, not the maximum number of times; no destination is
ever retried. -/
theorem c3_mixed_outcome_counterexample :
    (processJob (fun _ => [ruleFailing, ruleSucceeding]) mixedDeliver).outcome
        = JobOutcome.ok ∧
    (processJob (fun _ => [ruleFailing, ruleSucceeding]) mixedDeliver).attempts.length = 1 ∧
    deliveriesTo (processJob (fun _ => [ruleFailing, ruleSucceeding]) mixedDeliver)
        "https://h/fail" = 1 ∧
    deliveriesTo (processJob (fun _ => [ruleFailing, ruleSucceeding]) mixedDeliver)
        "https://h/ok" = 1 := by
  refine ⟨?_, ?_, ?_, ?_⟩ <;> decide

/-- C3 amended: when at least one destination succeeds on the first attempt,
the worker calls cb(null) immediately: the whole job finishes with a single
attempt in which every matched destination was delivered exactly once, so the
destinations that failed on that attempt are never retried (rather than being
retried on later passes), and the job is reported to the queue as a success
rather than a partial failure. -/
theorem c3_any_success_ends_job (route : Nat → List Rule)
    (deliver : Nat → Rule → DeliveryResult)
    (hne : route 0 ≠ [])
    (hsucc : ∃ r, r ∈ route 0 ∧ (deliver 0 r).isSuccess = true) :
    processJob route deliver
      = { attempts := [{ attemptIndex := 0, matched := route 0,
                         results := (route 0).map (sendOneWebhook (deliver 0)) }],
          retryDelaysMs := [], outcome := .ok } := by
  have h := attemptOutcome_of_success (route 0) (deliver 0) hne hsucc
  have h2 : (attemptOutcome (route 0) (deliver 0)).2 = none := by rw [h]
  have h1 : (attemptOutcome (route 0) (deliver 0)).1
      = (route 0).map (sendOneWebhook (deliver 0)) := by rw [h]
  show attemptWebhookLoop route deliver 3 3 = _
  rw [loop_succ_none route deliver (by omega) h2, h1]

/-- C3 witness: the amended theorem applied to the concrete mixed pair of
destinations. -/
theorem c3_any_success_ends_job_witness :
    processJob (fun _ => [ruleFailing, ruleSucceeding]) mixedDeliver
      = { attempts := [{ attemptIndex := 0, matched := [ruleFailing, ruleSucceeding],
                         results := [ruleFailing, ruleSucceeding].map
                           (sendOneWebhook (mixedDeliver 0)) }],
          retryDelaysMs := [], outcome := .ok } :=
  c3_any_success_ends_job (fun _ => [ruleFailing, ruleSucceeding]) mixedDeliver
    (by decide) ⟨ruleSucceeding, by decide, by decide⟩

/-! ## Claim C4 -/

/-- Destination matched by the first router snapshot in the C4 scenario. -/
def ruleA : Rule :=
  { name := "rA", priority := 1, conditionsTo := "a@x.com", webhook := "https://h/a" }

/-- Destination matched only by the later router snapshot. -/
def ruleB : Rule :=
  { name := "rB", priority := 2, conditionsTo := "a@x.com", webhook := "https://h/b" }

/-- Router outputs across attempts in the C4 scenario: the rules are swapped
between the first attempt and the retry (a reload replaced the router). -/
def c4Route : Nat → List Rule := fun k => if k = 0 then [ruleA] else [ruleB]

/-- Delivery oracle for the C4 scenario: the first attempt fails, the retry
succeeds. -/
def c4Deliver : Nat → Rule → DeliveryResult := fun k _ =>
  if k = 0 then .failure (some 500) "boom" else .success 200

/-- C4 counterexample: the retry of a job delivers to the list the router
matches at retry time, not to the list matched at enqueue time — here the
job's second attempt delivers to a destination that was not in the
first-attempt match at all. -/
theorem c4_fixed_destinations_counterexample :
    ((processJob c4Route c4Deliver).attempts).map (fun a => a.matched)
        = [[ruleA], [ruleB]] ∧
    deliveriesTo (processJob c4Route c4Deliver) "https://h/b" = 1 ∧
    "https://h/b" ∉ (c4Route 0).map (fun r => r.webhook) := by
  refine ⟨?_, ?_, ?_⟩ <;> decide

/-- C4 amended: the matched destination list is not fixed at enqueue time;
the worker re-runs webhookRouter.route on every attempt, so the list of each
attempt record equals the router output at that attempt's index. -/
theorem c4_destinations_recomputed_each_attempt (route : Nat → List Rule)
    (deliver : Nat → Rule → DeliveryResult) :
    ((processJob route deliver).attempts).map (fun a => a.matched)
      = ((processJob route deliver).attempts).map (fun a => route a.attemptIndex) := by
  apply List.map_congr_left
  intro a ha
  exact (attemptWebhookLoop_mem route deliver 3 3 a ha).1

/-! ## Claim C5 -/

/-- C5 counterexample: a job matching zero rules is not terminal immediately;
the worker treats the empty match as a thrown error and retries it like any
other failure, so the run has four attempts and three scheduled backoff
delays before the error is reported. -/
theorem c5_no_destinations_counterexample :
    (processJob (fun _ => []) (fun _ _ => .failure none "x")).attempts.length = 4 ∧
    (processJob (fun _ => []) (fun _ _ => .failure none "x")).retryDelaysMs
        = [1000, 2000, 3000] ∧
    (processJob (fun _ => []) (fun _ _ => .failure none "x")).outcome
        = JobOutcome.err .noWebhookEndpoints := by
  refine ⟨?_, ?_, ?_⟩ <;> rfl

/-- C5 amended: when the router matches zero rules, the worker throws the
no-endpoints error inside the attempt, re-routes and retries three more
times with backoff 1s, 2s, 3s, performs no HTTP delivery on any attempt, and
finally reports the error through the queue callback (so the failure is
surfaced, not silently dropped) — rather than reaching a terminal
no-destinations outcome immediately. -/
theorem c5_no_match_retries_then_reports (deliver : Nat → Rule → DeliveryResult) :
    processJob (fun _ => []) deliver
      = { attempts := [{ attemptIndex := 0, matched := [], results := [] },
                       { attemptIndex := 1, matched := [], results := [] },
                       { attemptIndex := 2, matched := [], results := [] },
                       { attemptIndex := 3, matched := [], results := [] }],
          retryDelaysMs := [1000, 2000, 3000],
          outcome := .err .noWebhookEndpoints } := rfl

/-! ## Claim C10 -/

/-- C10: within one job everything is sequential and ordered: each attempt
delivers one request per matched rule, in exactly the matched order (the
worker awaits each axios call inside a for loop), and the attempts of the
job form a single strictly increasing chain of counter values 0, 1, 2, ...
(each retry is scheduled only after the previous attempt finished), so no
two attempts of the same job overlap. -/
theorem c10_sequential_delivery_in_matched_order (route : Nat → List Rule)
    (deliver : Nat → Rule → DeliveryResult) :
    (((processJob route deliver).attempts).map
        (fun a => a.results.map (fun s => s.webhook))
      = ((processJob route deliver).attempts).map
        (fun a => a.matched.map (fun r => r.webhook))) ∧
    ((processJob route deliver).attempts).map (fun a => a.attemptIndex)
      = List.range ((processJob route deliver).attempts).length := by
  constructor
  · apply List.map_congr_left
    intro a ha
    obtain ⟨hm, hr⟩ := attemptWebhookLoop_mem route deliver 3 3 a ha
    rw [hr, attemptOutcome_fst]
    by_cases he : (route a.attemptIndex).isEmpty
    · rw [hm, List.isEmpty_iff.mp he]
      simp [he]
    · simp only [he, Bool.false_eq_true, if_false, List.map_map, hm]
      apply List.map_congr_left
      intro r _
      exact sendOneWebhook_webhook (deliver a.attemptIndex) r
  · have h := attemptWebhookLoop_indexes route deliver 3 3 (Nat.le_refl 3)
    rw [show (3 : Nat) - 3 = 0 from rfl] at h
    rw [List.range_eq_range' _]
    exact h

/-! ## Claim C6 -/

/-- Try block over a single matched rule: one send record, and a throw
exactly when that delivery failed (the all-failed check over one
destination). -/
lemma attemptOutcome_singleton (d : Rule → DeliveryResult) (r : Rule) :
    attemptOutcome [r] d
      = ([sendOneWebhook d r],
         if (d r).isSuccess then none else some (.allWebhooksFailed 1)) := by
  cases hd : d r <;>
    simp [attemptOutcome, sendOneWebhook, DeliveryResult.isSuccess, hd]

/-- A single destination that fails on every attempt before the last allowed
counter value m and succeeds at m produces the full chain: one attempt per
counter value from m - k to m, each with one send record, a 1000 * (j + 1)
backoff after the failed attempt with counter j, and a final cb(null). -/
lemma attemptWebhookLoop_singleton_chain (r : Rule)
    (deliver : Nat → Rule → DeliveryResult) (m : Nat) :
    ∀ (k : Nat), k ≤ m →
      (∀ j, m - k ≤ j → j < m → (deliver j r).isSuccess = false) →
      (deliver m r).isSuccess = true →
      attemptWebhookLoop (fun _ => [r]) deliver m k
        = { attempts := (List.range' (m - k) (k + 1)).map
              (fun j => { attemptIndex := j, matched := [r],
                          results := [sendOneWebhook (deliver j) r] }),
            retryDelaysMs := (List.range' (m - k) k).map (fun j => 1000 * (j + 1)),
            outcome := .ok } := by
  intro k
  induction k with
  | zero =>
      intro _ _ hsucc
      have hout := attemptOutcome_singleton (deliver m) r
      rw [hsucc, if_pos rfl] at hout
      have h2 : (attemptOutcome ((fun _ : Nat => [r]) m) (deliver m)).2 = none := by
        rw [hout]
      rw [loop_zero_none (fun _ => [r]) deliver h2]
      have h1 : (attemptOutcome ((fun _ : Nat => [r]) m) (deliver m)).1
          = [sendOneWebhook (deliver m) r] := by rw [hout]
      rw [h1]
      simp [List.range'_succ]
  | succ k ih =>
      intro hk hfail hsucc
      have hfj : (deliver (m - (k + 1)) r).isSuccess = false :=
        hfail (m - (k + 1)) (Nat.le_refl _) (by omega)
      have hout := attemptOutcome_singleton (deliver (m - (k + 1))) r
      rw [hfj] at hout
      simp only [Bool.false_eq_true, if_false] at hout
      have h2 : (attemptOutcome ((fun _ : Nat => [r]) (m - (k + 1)))
          (deliver (m - (k + 1)))).2 = some (.allWebhooksFailed 1) := by rw [hout]
      rw [loop_succ_some (fun _ => [r]) deliver rfl h2]
      have h1 : (attemptOutcome ((fun _ : Nat => [r]) (m - (k + 1)))
          (deliver (m - (k + 1)))).1 = [sendOneWebhook (deliver (m - (k + 1))) r] := by
        rw [hout]
      rw [h1, ih (by omega) (fun j hj1 hj2 => hfail j (by omega) hj2) hsucc]
      have hshift : m - k = m - (k + 1) + 1 := by omega
      dsimp only
      simp only [hshift, List.range'_succ, List.map_cons]

/-- Delivery oracle used as the C6 witness: three 500 responses, then a
200. -/
def failThriceDeliver : Nat → Rule → DeliveryResult := fun k _ =>
  if k < 3 then .failure (some 500) "boom" else .success 200

/-- C6: whenever every destination of an attempt fails, the retry is
scheduled 1000 * n milliseconds after the n-th attempt (so the delays of any
run are 1s, 2s, 3s in order), and maxRetries = 3 allows three retries after
the first attempt; a single destination failing on the first three attempts
and succeeding on the fourth gives cb(null) with exactly four recorded
delivery attempts for that destination and backoffs 1000, 2000, 3000. -/
theorem c6_linear_backoff_four_attempts (r : Rule)
    (deliver : Nat → Rule → DeliveryResult)
    (hfail : ∀ j, j < 3 → (deliver j r).isSuccess = false)
    (hsucc : (deliver 3 r).isSuccess = true) :
    (∀ (route : Nat → List Rule) (d : Nat → Rule → DeliveryResult),
        (processJob route d).retryDelaysMs
          = (List.range ((processJob route d).attempts.length - 1)).map
              (fun i => 1000 * (i + 1))) ∧
    (processJob (fun _ => [r]) deliver).outcome = .ok ∧
    (processJob (fun _ => [r]) deliver).attempts.length = 4 ∧
    (processJob (fun _ => [r]) deliver).retryDelaysMs = [1000, 2000, 3000] ∧
    deliveriesTo (processJob (fun _ => [r]) deliver) r.webhook = 4 := by
  have hchain := attemptWebhookLoop_singleton_chain r deliver 3 3 (Nat.le_refl 3)
    (fun j hj1 hj2 => hfail j hj2) hsucc
  have hrun : processJob (fun _ => [r]) deliver
      = { attempts := (List.range' 0 4).map
            (fun j => { attemptIndex := j, matched := [r],
                        results := [sendOneWebhook (deliver j) r] }),
          retryDelaysMs := (List.range' 0 3).map (fun j => 1000 * (j + 1)),
          outcome := .ok } := hchain
  refine ⟨?_, ?_, ?_, ?_, ?_⟩
  · intro route d
    have h := attemptWebhookLoop_delays route d 3 3 (Nat.le_refl 3)
    rw [show (3 : Nat) - 3 = 0 from rfl] at h
    rw [show (attemptWebhookLoop route d 3 3) = processJob route d from rfl] at h
    rw [h]
    apply List.map_congr_left
    intro i _
    omega
  · rw [hrun]
  · rw [hrun]; rfl
  · rw [hrun]; rfl
  · rw [hrun]
    simp [deliveriesTo, List.range', sendOneWebhook_webhook]

/-- C6 witness: the theorem applied to the sample rule and the oracle that
fails three times with a 500 and then returns 200. -/
theorem c6_linear_backoff_four_attempts_witness :
    (∀ (route : Nat → List Rule) (d : Nat → Rule → DeliveryResult),
        (processJob route d).retryDelaysMs
          = (List.range ((processJob route d).attempts.length - 1)).map
              (fun i => 1000 * (i + 1))) ∧
    (processJob (fun _ => [sampleRule]) failThriceDeliver).outcome = .ok ∧
    (processJob (fun _ => [sampleRule]) failThriceDeliver).attempts.length = 4 ∧
    (processJob (fun _ => [sampleRule]) failThriceDeliver).retryDelaysMs
        = [1000, 2000, 3000] ∧
    deliveriesTo (processJob (fun _ => [sampleRule]) failThriceDeliver)
        sampleRule.webhook = 4 :=
  c6_linear_backoff_four_attempts sampleRule failThriceDeliver
    (fun j hj => by
      unfold failThriceDeliver DeliveryResult.isSuccess
      rw [if_pos hj])
    (by decide)

/-! ## Claim C7 -/

/-- Concrete store whose single webhook row is configured with method PUT. -/
def putMethodDb : Db :=
  { email_addresses := [{ id := 1, email := "a@x.com", status := "active" }],
    webhooks := [{ id := 1, url := "https://h/1", method := "PUT" }],
    routing_rules := [{ id := 1, name := "r1", email_id := 1, webhook_id := 1 }] }

/-- C7 counterexample: the delivery request for a rule whose webhook row is
configured with method PUT is still sent as a POST — the loader never reads
the method column and the worker always calls axios.post. -/
theorem c7_configured_method_ignored_counterexample :
    ((loadRoutingRulesOk putMethodDb).map
        (fun r => (buildWebhookRequest (0 : Nat) r).method)) = ["POST"] ∧
    putMethodDb.webhooks.map (fun w => w.method) = ["PUT"] ∧
    ("POST" : String) ≠ "PUT" := by
  refine ⟨?_, ?_, ?_⟩ <;> decide

/-- C7 amended: every delivery attempt sends a POST (never the webhook row's
configured method, which is not even loaded) to the rule's url with a fixed
5000 ms timeout, the application/json content type, the
inbound-email-service/1.0 user agent, and a body holding the parsed email
plus the metadata block with rule name, priority and webhook url; the
request counts as success exactly for a 2xx response, and on a non-2xx
response or transport error the attempt is recorded as failed with the
response status kept when one is available. -/
theorem c7_request_shape_and_2xx_success (ε : Type) (parsed : ε) (m : Rule)
    (resp : Option Nat) :
    buildWebhookRequest parsed m
      = { method := "POST", url := m.webhook, payloadEmail := parsed,
          meta := { ruleName := m.name, priority := m.priority, webhook := m.webhook },
          timeoutMs := 5000, contentType := "application/json",
          userAgent := "inbound-email-service/1.0" } ∧
    ((axiosResult resp).isSuccess = true ↔ ∃ s, resp = some s ∧ 200 ≤ s ∧ s < 300) ∧
    (sendOneWebhook (fun _ => axiosResult resp) m).webhook = m.webhook ∧
    (sendOneWebhook (fun _ => axiosResult resp) m).success = (axiosResult resp).isSuccess ∧
    (∀ s, resp = some s → 0 < s →
      (sendOneWebhook (fun _ => axiosResult resp) m).status = some s) ∧
    (resp = none → (sendOneWebhook (fun _ => axiosResult resp) m).status = none) := by
  refine ⟨rfl, ?_, sendOneWebhook_webhook _ m, sendOneWebhook_success _ m, ?_, ?_⟩
  · cases resp with
    | none => simp [axiosResult, DeliveryResult.isSuccess]
    | some s =>
        by_cases h : 200 ≤ s ∧ s < 300
        · simp [axiosResult, DeliveryResult.isSuccess, h]
        · constructor
          · intro hc
            exact absurd hc (by simp [axiosResult, h, DeliveryResult.isSuccess])
          · rintro ⟨x, hx, hge, hlt⟩
            obtain rfl : s = x := Option.some_injective _ hx
            exact absurd ⟨hge, hlt⟩ h
  · intro s hs hpos
    subst hs
    by_cases h : 200 ≤ s ∧ s < 300
    · simp [sendOneWebhook, axiosResult, h]
    · simp only [sendOneWebhook, axiosResult, h, if_false]
      simp [Option.bind]
      omega
  · intro hn
    subst hn
    rfl

/-! ## Claim C8 -/

/-- C8: the engine entrypoint server refreshes the routing rules exactly once
at startup, before the SMTP listener starts accepting email, then installs
the 30 second periodic reload (also before listening), and every successful
reload publishes exactly the freshly loaded rules regardless of the previous
snapshot, so store changes become visible without a restart. -/
theorem c8_refresh_at_startup_then_every_30s :
    serverStartupOrder.count .reloadRules = 1 ∧
    serverStartupOrder.indexOf .reloadRules < serverStartupOrder.indexOf .listenSmtp ∧
    StartupStep.setIntervalReload 30000 ∈ serverStartupOrder ∧
    reloadPeriodMs = 30000 ∧
    serverStartupOrder.indexOf (.setIntervalReload reloadPeriodMs)
        < serverStartupOrder.indexOf .listenSmtp ∧
    (∀ (db : Db) (st : EngineState),
        ((reloadRoutingRules true db st).1).loadedRules = loadRoutingRulesOk db) := by
  refine ⟨by decide, by decide, by decide, rfl, by decide, fun db st => rfl⟩

/-! ## Claim C9 -/

/-- Filtering out a key leaves lookups of a different key unchanged. -/
lemma find?_key_filter_ne (l : List (String × List Nat)) (n k : String) (hk : k ≠ n) :
    (l.filter (fun t => t.1 ≠ n)).find? (fun t => t.1 == k)
      = l.find? (fun t => t.1 == k) := by
  induction l with
  | nil => rfl
  | cons x t ih =>
    by_cases h1 : x.1 = n
    · rw [List.filter_cons_of_neg (by simp [h1])]
      rw [List.find?_cons_of_neg _ (by simp [h1]; exact fun hc => hk hc.symm), ih]
    · rw [List.filter_cons_of_pos (by simp [h1])]
      by_cases h2 : x.1 = k
      · rw [List.find?_cons_of_pos _ (by simp [h2]),
          List.find?_cons_of_pos _ (by simp [h2])]
      · rw [List.find?_cons_of_neg _ (by simp [h2]),
          List.find?_cons_of_neg _ (by simp [h2]), ih]

/-- After filtering out a key, no entry with that key remains. -/
lemma any_key_filter_self (l : List (String × List Nat)) (n : String) :
    (l.filter (fun t => t.1 ≠ n)).any (fun t => t.1 == n) = false := by
  rw [Bool.eq_false_iff]
  intro hc
  obtain ⟨x, hx, hpx⟩ := List.any_eq_true.mp hc
  have h2 := (List.mem_filter.mp hx).2
  simp only [decide_eq_true_eq] at h2
  simp only [beq_iff_eq] at hpx
  exact h2 hpx

/-- A successful lookup witnesses a matching entry. -/
lemma any_of_find?_eq_some {l : List (String × List Nat)}
    {p : String × List Nat → Bool} {x : String × List Nat}
    (h : l.find? p = some x) : l.any p = true :=
  List.any_eq_true.mpr ⟨x, List.mem_of_find?_eq_some h, List.find?_some h⟩

/-- Transaction execution steps over a successful statement. -/
lemma runStmtsTx_cons_ok {s s2 : PgState} {stmt : SqlStmt} {rest : List SqlStmt}
    (h : execStmt s stmt = .ok s2) :
    runStmtsTx s (stmt :: rest) = runStmtsTx s2 rest := by
  simp [runStmtsTx, h]

/-- Transaction execution aborts at the first failing statement. -/
lemma runStmtsTx_cons_err {s : PgState} {stmt : SqlStmt} {rest : List SqlStmt} {e : String}
    (h : execStmt s stmt = .error e) :
    runStmtsTx s (stmt :: rest) = .error e := by
  simp [runStmtsTx, h]

/-- DROP TABLE IF EXISTS always succeeds and removes the table with its
indexes. -/
lemma execStmt_drop (s : PgState) (n : String) :
    execStmt s (.dropTableIfExists n)
      = .ok { tables := s.tables.filter (fun t => t.1 ≠ n),
              indexes := s.indexes.filter (fun i => i.2 ≠ n) } := rfl

/-- CREATE TABLE succeeds when no relation of that name exists. -/
lemma execStmt_create_ok {s : PgState} {n : String}
    (h : s.tables.any (fun t => t.1 == n) = false) :
    execStmt s (.createTable n) = .ok { s with tables := (n, []) :: s.tables } := by
  simp [execStmt, h]

/-- CREATE TABLE fails when the relation already exists. -/
lemma execStmt_create_err {s : PgState} {n : String}
    (h : s.tables.any (fun t => t.1 == n) = true) :
    execStmt s (.createTable n) = .error ("relation " ++ n ++ " already exists") := by
  simp [execStmt, h]

/-- Schema state left by a first boot against an empty database, after the
operator configured one email address (row 1), one webhook (row 7) and one
routing rule (row 3) through the store. -/
def bootedState : PgState :=
  { tables := [("email_addresses", [1]), ("webhooks", [7]), ("routing_rules", [3])],
    indexes := [("idx_email_addresses_status", "email_addresses"),
                ("idx_routing_rules_email_id", "routing_rules"),
                ("idx_routing_rules_webhook_id", "routing_rules")] }

/-- C9 counterexample: restarting the engine against a database produced by a
previous boot does not empty the rule store — the migration file runs as one
implicit transaction that fails at CREATE TABLE webhooks (the webhooks table
is never dropped and is created without IF NOT EXISTS) and rolls back
entirely, so the previously configured email address row 1, webhook row 7
and routing rule row 3 all survive unchanged and the SMTP server is never
started. -/
theorem c9_webhooks_survive_restart_counterexample :
    engineStartup bootedState
      = .migrationFailed bootedState "relation webhooks already exists" ∧
    lookupTable bootedState "webhooks" = some [7] ∧
    lookupTable bootedState "routing_rules" = some [3] ∧
    lookupTable bootedState "email_addresses" = some [1] := by
  refine ⟨?_, ?_, ?_, ?_⟩ <;> decide

/-- C9 amended: every engine startup runs the migration script before the
SMTP server, and the script's opening statements drop routing_rules,
webhook_destinations and email_addresses — but not webhooks. The whole file
executes as one implicit transaction, and because CREATE TABLE webhooks has
no IF NOT EXISTS it fails on any database where the webhooks table already
exists (every restart after a successful first boot): the transaction rolls
back, the database is left exactly unchanged — every previously configured
email address, webhook and routing rule survives — and the engine exits
without ever starting the SMTP server. -/
theorem c9_migration_blocks_restart (s : PgState) (d : List Nat)
    (h : lookupTable s "webhooks" = some d) :
    engineStartup s
      = .migrationFailed s ("relation " ++ "webhooks" ++ " already exists") ∧
    lookupTable s "webhooks" = some d ∧
    (∀ b, engineStartup s ≠ .started b) := by
  obtain ⟨t, ht, htd⟩ : ∃ t, s.tables.find? (fun x => x.1 == "webhooks") = some t
      ∧ t.2 = d := by
    unfold lookupTable at h
    cases hf : s.tables.find? (fun x => x.1 == "webhooks") with
    | none => rw [hf] at h; exact absurd h (by simp)
    | some t2 =>
        rw [hf] at h
        simp only [Option.map_some'] at h
        exact ⟨t2, rfl, Option.some_injective _ h⟩
  have hfind3 : (((s.tables.filter (fun t => t.1 ≠ "routing_rules")).filter
        (fun t => t.1 ≠ "webhook_destinations")).filter
        (fun t => t.1 ≠ "email_addresses")).find? (fun x => x.1 == "webhooks")
      = some t := by
    rw [find?_key_filter_ne _ _ _ (by decide), find?_key_filter_ne _ _ _ (by decide),
      find?_key_filter_ne _ _ _ (by decide), ht]
  have htx : runStmtsTx s migration001
      = .error ("relation " ++ "webhooks" ++ " already exists") := by
    unfold migration001
    rw [runStmtsTx_cons_ok (execStmt_drop s "routing_rules")]
    rw [runStmtsTx_cons_ok (execStmt_drop _ "webhook_destinations")]
    rw [runStmtsTx_cons_ok (execStmt_drop _ "email_addresses")]
    rw [runStmtsTx_cons_ok (execStmt_create_ok (any_key_filter_self _ "email_addresses"))]
    rw [runStmtsTx_cons_err (execStmt_create_err ?hany)]
    case hany =>
      rw [List.any_cons]
      have h1 : (("email_addresses", ([] : List Nat)).1 == "webhooks") = false := by decide
      rw [h1, Bool.false_or]
      exact any_of_find?_eq_some hfind3
  have hmain : engineStartup s
      = .migrationFailed s ("relation " ++ "webhooks" ++ " already exists") := by
    unfold engineStartup runMigrations
    rw [htx]
  refine ⟨hmain, h, ?_⟩
  intro b hb
  rw [hmain] at hb
  exact absurd hb (by simp)

/-- C9 witness: the amended theorem applied to the concrete post-boot
database state holding webhook row 7. -/
theorem c9_migration_blocks_restart_witness :
    engineStartup bootedState
      = .migrationFailed bootedState ("relation " ++ "webhooks" ++ " already exists") ∧
    lookupTable bootedState "webhooks" = some [7] ∧
    (∀ b, engineStartup bootedState ≠ .started b) :=
  c9_migration_blocks_restart bootedState [7] (by decide)

end Mailhooks
